import Mathlib

/-!
Verification development for the twitch-clawcraft tool service
(`src/index.js`): an action-execution gateway that validates requests
against per-action schemas, rate-limits per action, deduplicates async
requests through an idempotency index, tracks background jobs, retries
external commands with exponential backoff, and garbage-collects
expired jobs.

Modelling conventions:
- JavaScript objects used as string-keyed maps (`jobs`, `idempotency`,
  `rateLimitByAction`, request `args`) are association lists with
  first-match lookup; `Map.set` replaces in place or appends.
- Timestamps are naturals (milliseconds).  The code stores ISO strings
  and re-parses them with `Date.parse`; the model keeps the numeric
  instant, so `Date.parse(job.created_at)` is the identity and always
  finite.
- `crypto.randomBytes(...).toString('hex')` values are inputs to the
  model (the `FreshIds` record); `crypto.createHash('sha1')` is an
  oracle parameter `sha1hex : String → String`.
- JavaScript values appearing in `args` are `JVal`: `null`, strings,
  or any other defined value carried with its `String(...)` coercion
  and its truthiness.
-/

/-- A JavaScript value stored in a request's `args` object.  `jother`
carries the `String(v)` coercion and the truthiness of a non-null,
non-string value. -/
inductive JVal where
  | jnull : JVal
  | jstr : String → JVal
  | jother : String → Bool → JVal
deriving DecidableEq, Repr

/-- `String(v)` for a defined value. -/
def jsToString : JVal → String
  | JVal.jnull => "null"
  | JVal.jstr s => s
  | JVal.jother r _ => r

/-- JavaScript truthiness of a defined value. -/
def jsTruthy : JVal → Bool
  | JVal.jnull => false
  | JVal.jstr s => !(s == "")
  | JVal.jother _ t => t

/-- ECMAScript whitespace for `String.prototype.trim` (the model
covers the ASCII whitespace characters). -/
def isJsWhitespace (c : Char) : Bool :=
  c = ' ' || c = '\t' || c = '\n' || c = '\r' || c = '\x0b' || c = '\x0c'

/-- JavaScript `s.trim()`: strip whitespace from both ends.  (Defined
on the character list so that it reduces in the kernel.) -/
def jsTrim (s : String) : String :=
  String.mk
    (((s.data.dropWhile isJsWhitespace).reverse.dropWhile isJsWhitespace).reverse)

/-- First-match lookup in an association list (JS object / `Map.get`). -/
def alookup {β : Type} : List (String × β) → String → Option β
  | [], _ => none
  | (k, v) :: rest, key => if k = key then some v else alookup rest key

/-- In-place update or append (JS object assignment / `Map.set`). -/
def aset {β : Type} : List (String × β) → String → β → List (String × β)
  | [], key, v => [(key, v)]
  | (k, w) :: rest, key, v =>
    if k = key then (key, v) :: rest else (k, w) :: aset rest key v

/-- Removal of a key (JS `Map.delete`). -/
def adelete {β : Type} : List (String × β) → String → List (String × β)
  | [], _ => []
  | (k, v) :: rest, key =>
    if k = key then adelete rest key else (k, v) :: adelete rest key

/-- Character class of the `agent_id` pattern `[A-Za-z0-9._-]`. -/
def agentIdChar (c : Char) : Bool :=
  c.isAlpha || c.isDigit || c = '.' || c = '_' || c = '-'

/-- The `agent_id` pattern `^[A-Za-z0-9._-]{2,120}$` from
`validateActionPayload` (src/index.js:222). -/
def validAgentId (s : String) : Bool :=
  2 ≤ s.length && s.length ≤ 120 && s.toList.all agentIdChar

/-- Character class of `\w` plus `.` and `-`. -/
def normalizedIdChar (c : Char) : Bool :=
  c.isAlpha || c.isDigit || c = '_' || c = '.' || c = '-'

/-- The id pattern `^[\w.-]{4,120}$` used by `JobStore.normalizeId`
(src/index.js:313). -/
def validNormalizedIdPattern (s : String) : Bool :=
  4 ≤ s.length && s.length ≤ 120 && s.toList.all normalizedIdChar

/-- Per-field validation rule of an action schema
(src/index.js:50-105).  `minLength`/`maxLength` are `0` when the
source omits them (the source guards each check with
`constraints.minLength &&` / `constraints.maxLength &&`, so `0` and
"absent" behave identically). -/
structure FieldConstraint where
  isString : Bool
  minLength : Nat
  maxLength : Nat
  enumVals : List String
deriving DecidableEq, Repr

/-- A string field with the given min/max length. -/
def strField (lo hi : Nat) : FieldConstraint :=
  { isString := true, minLength := lo, maxLength := hi, enumVals := [] }

/-- Static validation rules of one action (src/index.js:50-105). -/
structure ActionSchema where
  required : List String
  allow : List String
  fields : List (String × FieldConstraint)
deriving DecidableEq, Repr

/-- `TWITCH_TOOL_ACTIONS` (src/index.js:36-43). -/
def TWITCH_TOOL_ACTIONS : List String :=
  ["twitch.start_stream", "twitch.stop_stream", "twitch.set_title",
   "twitch.set_game", "twitch.post_chat_message", "twitch.create_clip"]

/-- `ASYNC_TOOL_ACTIONS` (src/index.js:45-48). -/
def ASYNC_TOOL_ACTIONS : List String :=
  ["twitch.start_stream", "twitch.stop_stream"]

/-- `TWITCH_TOOL_SCHEMAS` (src/index.js:50-105). -/
def TWITCH_TOOL_SCHEMAS : List (String × ActionSchema) :=
  [("twitch.start_stream",
    { required := ["channel"],
      allow := ["channel", "title", "game", "game_id", "obs_scene", "quality"],
      fields :=
        [("channel", strField 2 64), ("title", strField 1 160),
         ("game", strField 1 120), ("game_id", strField 1 80),
         ("obs_scene", strField 1 120),
         ("quality",
          { isString := true, minLength := 0, maxLength := 0,
            enumVals := ["low", "medium", "high", "source"] })] }),
   ("twitch.stop_stream",
    { required := [],
      allow := ["reason", "channel"],
      fields := [("reason", strField 1 160), ("channel", strField 2 64)] }),
   ("twitch.set_title",
    { required := ["title"],
      allow := ["title", "channel"],
      fields := [("title", strField 1 140), ("channel", strField 2 64)] }),
   ("twitch.set_game",
    { required := [],
      allow := ["game", "game_id", "channel"],
      fields :=
        [("game", strField 1 120), ("game_id", strField 1 80),
         ("channel", strField 2 64)] }),
   ("twitch.post_chat_message",
    { required := ["message"],
      allow := ["message", "channel", "reply_parent_message_id"],
      fields :=
        [("message", strField 1 500), ("channel", strField 2 64),
         ("reply_parent_message_id", strField 8 60)] }),
   ("twitch.create_clip",
    { required := [],
      allow := ["title", "channel"],
      fields := [("title", strField 1 100), ("channel", strField 2 64)] })]

/-- `ACTION_TO_HANDLER` (src/index.js:107-114). -/
def ACTION_TO_HANDLER : List (String × String) :=
  [("twitch.start_stream", "startStream"), ("twitch.stop_stream", "stopStream"),
   ("twitch.set_title", "setTitle"), ("twitch.set_game", "setGame"),
   ("twitch.post_chat_message", "postChatMessage"),
   ("twitch.create_clip", "createClip")]

/-- An inbound `/tools/execute` request body.  The scalar fields are
the `String(payload.x || '')` coercions the source applies before any
other use; `args` is kept structured. -/
structure Payload where
  request_id : String
  agent_id : String
  action : String
  args : List (String × JVal)
  mission_id : String
  correlation_id : String
deriving DecidableEq, Repr

/-- `String(x || '').trim() || null`. -/
def strOrNone (s : String) : Option String :=
  if jsTrim s = "" then none else some (jsTrim s)

/-- The normalized request produced by a successful validation
(src/index.js:279-286). -/
structure NormalizedRequest where
  request_id : Option String
  agent_id : String
  action : String
  args : List (String × JVal)
  mission_id : Option String
  correlation_id : Option String
deriving DecidableEq, Repr

/-- The required-field test of `validateActionPayload`
(src/index.js:247-252): absent, `null`, or empty after trimming. -/
def requiredFieldMissing (args : List (String × JVal)) (r : String) : Bool :=
  match alookup args r with
  | none => true
  | some JVal.jnull => true
  | some v => jsTrim (jsToString v) == ""

/-- Truthiness of `args[k]` (absent is falsy). -/
def argTruthy (args : List (String × JVal)) (k : String) : Bool :=
  match alookup args k with
  | none => false
  | some v => jsTruthy v

/-- `enum.includes(v)` for a `JVal` (strict equality: only a string
can match the string enum entries). -/
def enumContainsVal (vals : List String) : JVal → Bool
  | JVal.jstr s => vals.contains s
  | _ => false

/-- The per-field constraint loop of `validateActionPayload`
(src/index.js:254-273): type/length checks, trimming written back
into `args`, and the enum check. -/
def applyFieldConstraints :
    List (String × FieldConstraint) → List (String × JVal) →
    Except String (List (String × JVal))
  | [], args => Except.ok args
  | (field, c) :: rest, args =>
    match alookup args field with
    | none => applyFieldConstraints rest args
    | some v =>
      if c.isString then
        match v with
        | JVal.jstr s =>
          let t := jsTrim s
          if c.minLength ≠ 0 ∧ t.length < c.minLength then
            Except.error ("Field \"" ++ field ++ "\" too short")
          else if c.maxLength ≠ 0 ∧ t.length > c.maxLength then
            Except.error ("Field \"" ++ field ++ "\" too long")
          else if c.enumVals ≠ [] ∧ ¬ c.enumVals.contains t then
            Except.error ("Field \"" ++ field ++ "\" has invalid value")
          else applyFieldConstraints rest (aset args field (JVal.jstr t))
        | _ => Except.error ("Field \"" ++ field ++ "\" must be string")
      else
        if c.enumVals ≠ [] ∧ ¬ enumContainsVal c.enumVals v then
          Except.error ("Field \"" ++ field ++ "\" has invalid value")
        else applyFieldConstraints rest args

/-- `validateActionPayload` (src/index.js:210-289). -/
def validateActionPayload (p : Payload) : Except String NormalizedRequest :=
  let requestId := strOrNone p.request_id
  let agentId := jsTrim p.agent_id
  let action := jsTrim p.action
  let args := p.args
  let missionId := jsTrim p.mission_id
  let correlationId := jsTrim p.correlation_id
  if ¬ validAgentId agentId then
    Except.error "agent_id must be 2-120 chars"
  else if ¬ TWITCH_TOOL_ACTIONS.contains action then
    Except.error ("Unsupported action \"" ++ action ++ "\"")
  else
    match alookup TWITCH_TOOL_SCHEMAS action with
    | none => Except.error ("Missing action schema for \"" ++ action ++ "\"")
    | some schema =>
      if ASYNC_TOOL_ACTIONS.contains action ∧ requestId = none ∧
          missionId = "" ∧ correlationId = "" then
        Except.error ("request_id required for async action \"" ++ action ++
          "\" when mission_id/correlation_id is missing")
      else
        match args.find? (fun e => !(schema.allow.contains e.1)) with
        | some e =>
          Except.error ("Unexpected field \"" ++ e.1 ++ "\" for action " ++ action)
        | none =>
          match schema.required.find? (fun r => requiredFieldMissing args r) with
          | some r =>
            Except.error ("Field \"" ++ r ++ "\" is required for action \"" ++
              action ++ "\"")
          | none =>
            match applyFieldConstraints schema.fields args with
            | Except.error msg => Except.error msg
            | Except.ok args2 =>
              if action = "twitch.set_game" ∧ ¬ argTruthy args2 "game" ∧
                  ¬ argTruthy args2 "game_id" then
                Except.error "twitch.set_game requires game or game_id"
              else
                Except.ok
                  { request_id := requestId, agent_id := agentId,
                    action := action, args := args2,
                    mission_id := strOrNone p.mission_id,
                    correlation_id := strOrNone p.correlation_id }

/-- The error message of a failed validation (`""` when validation
succeeds). -/
def validateErrMsg (p : Payload) : String :=
  match validateActionPayload p with
  | Except.error m => m
  | Except.ok _ => ""

/-- Does the payload carry an `args` key outside its action's
`allow` set? -/
def hasUnexpectedKey (p : Payload) : Bool :=
  match alookup TWITCH_TOOL_SCHEMAS (jsTrim p.action) with
  | some schema => p.args.any (fun e => !(schema.allow.contains e.1))
  | none => false

/-- Is some `required` field of the payload's action absent, `null`,
or empty after trimming in `args`? -/
def hasMissingRequired (p : Payload) : Bool :=
  match alookup TWITCH_TOOL_SCHEMAS (jsTrim p.action) with
  | some schema => schema.required.any (requiredFieldMissing p.args)
  | none => false

/-- A rate bucket: fixed-window start and admitted count
(src/index.js:190-208). -/
structure RateBucket where
  start : Nat
  count : Nat
deriving DecidableEq, Repr

/-- `canRunAction` (src/index.js:190-208), acting on the
`rateLimitByAction` map: returns the admission decision and the
updated map.  `limit` is the configured
`TOOL_ACTION_RATE_LIMIT_PER_MIN` (already coerced to a finite number
by `isFiniteNumber`). -/
def canRunAction (limit now : Nat) (rate : List (String × RateBucket))
    (action : String) : Bool × List (String × RateBucket) :=
  let bucket :=
    match alookup rate action with
    | some b => b
    | none => { start := now, count := 0 }
  let bucket :=
    if now - bucket.start ≥ 60000 then { start := now, count := 0 } else bucket
  if bucket.count ≥ limit then (false, aset rate action bucket)
  else (true, aset rate action { bucket with count := bucket.count + 1 })

/-- A job progress snapshot (`JobStore.buildProgress`,
src/index.js:304-310). -/
structure Progress where
  percent : Nat
  message : String
  updatedAt : Nat
deriving DecidableEq, Repr

/-- The accumulated `job.result` object: the fields ever written by
the dispatcher (src/index.js:344-367, 1030-1036). -/
structure HandlerResp where
  status : String
  error : String
deriving DecidableEq, Repr

structure JobResult where
  status : Option String
  request_id : Option String
  action_response : Option HandlerResp
  error : Option String
  reason : Option String
deriving DecidableEq, Repr

def emptyResult : JobResult :=
  { status := none, request_id := none, action_response := none,
    error := none, reason := none }

/-- A job record (`JobStore.createJob`, src/index.js:319-342). -/
structure Job where
  id : String
  action : String
  request_id : String
  agent_id : String
  mission_id : Option String
  correlation_id : Option String
  args : List (String × JVal)
  status : String
  progress : Progress
  result : JobResult
  created_at : Nat
  updated_at : Nat
deriving DecidableEq, Repr

/-- `JobStore.normalizeId` (src/index.js:312-317).  `freshHex` is the
`crypto.randomBytes(8).toString('hex')` value drawn when the fallback
fires. -/
def normalizeId (value : Option String) (fallbackPrefix freshHex : String) :
    String :=
  match value with
  | some s => if validNormalizedIdPattern (jsTrim s) then jsTrim s
              else fallbackPrefix ++ "_" ++ freshHex
  | none => fallbackPrefix ++ "_" ++ freshHex

/-- `JobStore.buildProgress` (src/index.js:304-310). -/
def buildProgress (now percent : Nat) (message : String) : Progress :=
  { percent := percent, message := message, updatedAt := now }

/-- `JobStore.createJob` (src/index.js:319-342). -/
def createJob (now : Nat) (jobHex : String) (action requestId agentId : String)
    (missionId correlationId : Option String) (args : List (String × JVal)) :
    Job :=
  { id := normalizeId none "tool" jobHex, action := action,
    request_id := requestId, agent_id := agentId, mission_id := missionId,
    correlation_id := correlationId, args := args, status := "queued",
    progress := buildProgress now 5 "queued", result := emptyResult,
    created_at := now, updated_at := now }

/-- `JobStore.failJob` (src/index.js:358-367).  `errMsg` is
`String(error?.message || error || ...)` before the final default. -/
def failJob (now : Nat) (job : Job) (errMsg : String) : Job :=
  { job with
    status := "failed",
    result := { job.result with
      error := some (if errMsg = "" then "tool execution failed" else errMsg) },
    progress := buildProgress now 100 "failed",
    updated_at := now }

/-- `jobSummary` (src/index.js:291-301). -/
structure JobSummary where
  id : String
  action : String
  status : String
  progress : Progress
  request_id : String
  created_at : Nat
  updated_at : Nat
deriving DecidableEq, Repr

def jobSummary (j : Job) : JobSummary :=
  { id := j.id, action := j.action, status := j.status,
    progress := j.progress, request_id := j.request_id,
    created_at := j.created_at, updated_at := j.updated_at }

/-- The process-wide mutable maps (src/index.js:116-118). -/
structure ServerState where
  jobs : List (String × Job)
  idem : List (String × String)
  rate : List (String × RateBucket)
deriving DecidableEq, Repr

/-- The random hex strings drawn by one `/tools/execute` request:
`reqHex` for `normalizeId(request_id, 'req')` and `jobHex` for the
job id (`normalizeId(null, 'tool')`). -/
structure FreshIds where
  reqHex : String
  jobHex : String
deriving DecidableEq, Repr

/-- The response shapes of `POST /tools/execute`
(src/index.js:1100-1177).  The sync executor outcome is resolved
after the response in the real server only for async actions; for
sync actions the model records the dispatch (`syncStarted`) and the
invocation in the call list, leaving the external outcome to the
executor model. -/
inductive SubmitResponse where
  | validationError : String → SubmitResponse
  | rateLimited : SubmitResponse
  | asyncReplay : JobSummary → SubmitResponse
  | asyncQueued : (jobId : String) → (status : String) →
      (progressPercent : Nat) → (requestId : String) → SubmitResponse
  | syncStarted : String → SubmitResponse
deriving DecidableEq, Repr

/-- One scheduled executor invocation
(`executeAsyncToolAction(job, action, args, agentId)` or the sync
handler call). -/
structure ExecCall where
  action : String
  agent_id : String
  args : List (String × JVal)
  job_id : Option String
deriving DecidableEq, Repr

/-- `idempotencySeed` (src/index.js:1112-1115):
`request_id || mission_id || correlation_id || action:agentId`. -/
def idempotencySeed (n : NormalizedRequest) : String :=
  match n.request_id with
  | some r => r
  | none =>
    match n.mission_id with
    | some m => m
    | none =>
      match n.correlation_id with
      | some c => c
      | none => n.action ++ ":" ++ n.agent_id

/-- `requestId` derivation (src/index.js:1116-1121): a supplied
`request_id` goes through `normalizeId`; otherwise a deterministic
id is derived from the SHA-1 of the seed. -/
def deriveRequestId (sha1hex : String → String) (fresh : FreshIds)
    (n : NormalizedRequest) : String :=
  match n.request_id with
  | some rid => normalizeId (some rid) "req" fresh.reqHex
  | none =>
    "req_" ++
      (sha1hex ("async|" ++ idempotencySeed n ++ "|" ++ n.action ++ "|" ++
        n.agent_id)).take 18

/-- Creation half of the async branch (src/index.js:1135-1157):
make the job, register it and its idempotency entry, schedule the
background execution, and shape the 202 response. -/
def asyncCreate (now : Nat) (fresh : FreshIds) (n : NormalizedRequest)
    (requestId : String) (correlationId : Option String) (st : ServerState) :
    SubmitResponse × ServerState × List ExecCall :=
  let job := createJob now fresh.jobHex n.action requestId n.agent_id
    n.mission_id correlationId n.args
  let key := n.action ++ ":" ++ requestId
  (SubmitResponse.asyncQueued job.id job.status job.progress.percent requestId,
   { st with jobs := aset st.jobs job.id job, idem := aset st.idem key job.id },
   [{ action := n.action, agent_id := n.agent_id, args := n.args,
      job_id := some job.id }])

/-- The async branch of the handler (src/index.js:1124-1157):
idempotent replay when the dedup key is bound to a live job,
stale-entry cleanup, else job creation. -/
def submitAsync (now : Nat) (fresh : FreshIds) (n : NormalizedRequest)
    (requestId : String) (correlationId : Option String) (st : ServerState) :
    SubmitResponse × ServerState × List ExecCall :=
  let key := n.action ++ ":" ++ requestId
  match alookup st.idem key with
  | some jid =>
    match alookup st.jobs jid with
    | some existing => (SubmitResponse.asyncReplay (jobSummary existing), st, [])
    | none =>
      asyncCreate now fresh n requestId correlationId
        { st with idem := adelete st.idem key }
  | none => asyncCreate now fresh n requestId correlationId st

/-- The admitted request path (src/index.js:1109-1176): derive the
request id and correlation id, then dispatch async or sync. -/
def submitAdmitted (sha1hex : String → String) (now : Nat) (fresh : FreshIds)
    (n : NormalizedRequest) (st : ServerState) :
    SubmitResponse × ServerState × List ExecCall :=
  let requestId := deriveRequestId sha1hex fresh n
  let correlationId :=
    match n.correlation_id with
    | some c => some c
    | none => n.mission_id
  if ASYNC_TOOL_ACTIONS.contains n.action then
    submitAsync now fresh n requestId correlationId st
  else
    (SubmitResponse.syncStarted requestId, st,
     [{ action := n.action, agent_id := n.agent_id, args := n.args,
        job_id := none }])

/-- `POST /tools/execute` (src/index.js:1100-1177): validation, then
rate-limit admission, then dispatch.  Returns the HTTP response
shape, the new server state, and the executor invocations this
request scheduled. -/
def submitAction (sha1hex : String → String) (limit now : Nat)
    (fresh : FreshIds) (p : Payload) (st : ServerState) :
    SubmitResponse × ServerState × List ExecCall :=
  match validateActionPayload p with
  | Except.error msg => (SubmitResponse.validationError msg, st, [])
  | Except.ok n =>
    let rr := canRunAction limit now st.rate n.action
    if rr.1 then submitAdmitted sha1hex now fresh n { st with rate := rr.2 }
    else (SubmitResponse.rateLimited, { st with rate := rr.2 }, [])

/-- `executeAsyncToolAction` (src/index.js:998-1041), modelled at its
settlement: the handler outcome (success value or thrown error
message) is an input, and the function returns the job as it stands
when the background task settles.  The transient 20/45/70% progress
writes are subsumed by the terminal write; `withRetry` is invoked
with `retries: 0`, i.e. a single attempt whose error propagates to
the catch. -/
def executeAsyncToolAction (now : Nat) (job : Job) (action : String)
    (outcome : Except String HandlerResp) : Job :=
  let job := { job with
    status := "running",
    progress := buildProgress now 20 (action ++ " started") }
  if (alookup ACTION_TO_HANDLER action).isNone then
    failJob now job ("No handler mapped for action \"" ++ action ++ "\"")
  else
    match outcome with
    | Except.error e => failJob now job e
    | Except.ok resp =>
      if resp.status = "failed" then
        failJob now job (if resp.error = "" then "tool action failed" else resp.error)
      else
        { job with
          status := "done",
          result := { status := some (if resp.status = "" then "done" else resp.status),
                      request_id := some job.request_id,
                      action_response := some resp,
                      error := none, reason := none },
          progress := buildProgress now 100 (action ++ " finished"),
          updated_at := now }

/-- Job half of the sweep interval (src/index.js:1181-1186): drop
jobs whose age from `created_at` exceeds the TTL, regardless of
status.  (`Date.parse` of a stored ISO timestamp is always finite in
the model.) -/
def sweepJobs (now ttl : Nat) : List (String × Job) → List (String × Job)
  | [] => []
  | (i, j) :: rest =>
    if now - j.created_at > ttl then sweepJobs now ttl rest
    else (i, j) :: sweepJobs now ttl rest

/-- Idempotency half of the sweep (src/index.js:1187-1190): drop
entries whose referenced job no longer exists. -/
def sweepIdem (jobs2 : List (String × Job)) :
    List (String × String) → List (String × String)
  | [] => []
  | (k, jid) :: rest =>
    if (alookup jobs2 jid).isSome then (k, jid) :: sweepIdem jobs2 rest
    else sweepIdem jobs2 rest

/-- The full sweep pass (src/index.js:1179-1191). -/
def sweep (now ttl : Nat) (st : ServerState) : ServerState :=
  let jobs2 := sweepJobs now ttl st.jobs
  { st with jobs := jobs2, idem := sweepIdem jobs2 st.idem }

/-- Normalized stream state (`OBSStreamController.normalizeStreamState`,
src/index.js:707-720), reduced to the fields the controller reads. -/
structure StreamState where
  active : Bool
  outputState : String
deriving DecidableEq, Repr

/-- Observable steps of the OBS controller: commands sent over the
websocket and the waits between them. -/
inductive ObsEvent where
  | setSceneCmd : String → ObsEvent
  | statusQuery : ObsEvent
  | startCmd : ObsEvent
  | stopCmd : ObsEvent
  | backoffWait : Nat → ObsEvent
  | pollWait : Nat → ObsEvent
deriving DecidableEq, Repr

/-- `withRetry` (src/index.js:144-159) for a deterministic attempt
oracle `fn` (the outcome of the `attempt`-th invocation, 1-based).
Returns the result, the number of invocations actually made, and the
backoff waits performed in order.  `attempt` is the 0-based loop
counter and `fuel` the number of loop iterations left
(`retries + 1 - attempt`); the `fuel = 0` branch is unreachable from
`withRetry` itself. -/
def withRetryGo {α : Type} (fn : Nat → Except String α) (delayMs : Nat) :
    Nat → Nat → Except String α × Nat × List Nat
  | _, 0 => (Except.error "retry fuel exhausted", 0, [])
  | attempt, fuel + 1 =>
    match fn (attempt + 1) with
    | Except.ok v => (Except.ok v, 1, [])
    | Except.error e =>
      if fuel = 0 then (Except.error e, 1, [])
      else
        let r := withRetryGo fn delayMs (attempt + 1) fuel
        (r.1, r.2.1 + 1, delayMs * 2 ^ attempt :: r.2.2)

/-- `withRetry(fn, { retries, delayMs })` (src/index.js:144-159). -/
def withRetry {α : Type} (fn : Nat → Except String α)
    (retries delayMs : Nat) : Except String α × Nat × List Nat :=
  withRetryGo fn delayMs 0 (retries + 1)

/-- Interleave the issued command events with the backoff waits,
reconstructing a `withRetry` run's event trace (one command per
invocation, a wait between consecutive invocations). -/
def retryEvents (cmd : ObsEvent) : Nat → List Nat → List ObsEvent
  | 0, _ => []
  | _ + 1, [] => [cmd]
  | n + 1, w :: ws => cmd :: ObsEvent.backoffWait w :: retryEvents cmd n ws

/-- The timeout error of `ensureStreamState` (src/index.js:744-745). -/
def ensureTimeoutMsg (label : String) (target : Bool)
    (last : Option StreamState) : String :=
  let st :=
    match last with
    | some s =>
      if s.outputState = "" then (if target then "started" else "stopped")
      else s.outputState
    | none => if target then "started" else "stopped"
  "timed out while waiting for OBS to " ++ label ++ " (state=" ++ st ++ ")"

/-- The poll loop of `ensureStreamState` (src/index.js:732-746).
`q k` is the state returned by the `k`-th status query of the loop;
with status queries instantaneous, the loop's `k`-th entry check
happens at elapsed time `k * pollMs`, so the loop body runs while
`k * pollMs < timeout`.  `fuel` bounds the recursion; the caller
passes `timeout + 1`, which can only be exhausted when `pollMs = 0`
(where the source would poll forever). -/
def ensureGo (q : Nat → StreamState) (target : Bool)
    (timeout pollMs : Nat) (label : String) :
    Nat → Option StreamState → Nat → Except String StreamState × List ObsEvent
  | _, last, 0 => (Except.error (ensureTimeoutMsg label target last), [])
  | k, last, fuel + 1 =>
    if k * pollMs < timeout then
      let s := q k
      if s.active = target then (Except.ok s, [ObsEvent.statusQuery])
      else
        let r := ensureGo q target timeout pollMs label (k + 1) (some s) fuel
        (r.1, ObsEvent.statusQuery :: ObsEvent.pollWait pollMs :: r.2)
    else (Except.error (ensureTimeoutMsg label target last), [])

/-- `OBSStreamController.ensureStreamState` (src/index.js:732-746). -/
def ensureStreamState (q : Nat → StreamState) (target : Bool)
    (timeout pollMs : Nat) (label : String) :
    Except String StreamState × List ObsEvent :=
  ensureGo q target timeout pollMs label 0 none (timeout + 1)

/-- `OBSStreamController.startStream` (src/index.js:760-784).
Oracles: `sceneOutcome` is the result of `setScene` when a scene name
is configured; `q k` is the result of the `k`-th status query of the
whole call (`k = 0` is the `before` check, later indices feed the
poll loop); `startOut a` is the outcome of the `a`-th `StartStream`
command (1-based).  Returns the result (`status` string and final
state, or the thrown error message) together with the event trace. -/
def obsStartStream (sceneName : String) (sceneOutcome : Except String Unit)
    (q : Nat → StreamState) (startOut : Nat → Except String Unit)
    (retries delayMs timeout pollMs : Nat) :
    Except String (String × StreamState) × List ObsEvent :=
  let sceneEvents :=
    if sceneName = "" then ([] : List ObsEvent)
    else [ObsEvent.setSceneCmd sceneName]
  let sceneRes : Except String Unit :=
    if sceneName = "" then Except.ok () else sceneOutcome
  match sceneRes with
  | Except.error e => (Except.error e, sceneEvents)
  | Except.ok _ =>
    let before := q 0
    if before.active then
      (Except.ok ("already_running", before),
       sceneEvents ++ [ObsEvent.statusQuery])
    else
      let rr := withRetry startOut retries delayMs
      let cmdEvents := retryEvents ObsEvent.startCmd rr.2.1 rr.2.2
      match rr.1 with
      | Except.error e =>
        (Except.error e, sceneEvents ++ [ObsEvent.statusQuery] ++ cmdEvents)
      | Except.ok _ =>
        let ens := ensureStreamState (fun k => q (k + 1)) true timeout pollMs
          "start"
        match ens.1 with
        | Except.ok after =>
          (Except.ok ("running", after),
           sceneEvents ++ [ObsEvent.statusQuery] ++ cmdEvents ++ ens.2)
        | Except.error e =>
          (Except.error e,
           sceneEvents ++ [ObsEvent.statusQuery] ++ cmdEvents ++ ens.2)

/-- `OBSStreamController.stopStream` (src/index.js:786-811), with the
same oracle conventions as `obsStartStream` (`stopOut a` is the
outcome of the `a`-th `StopStream` command). -/
def obsStopStream (q : Nat → StreamState) (stopOut : Nat → Except String Unit)
    (retries delayMs timeout pollMs : Nat) :
    Except String (String × StreamState) × List ObsEvent :=
  let before := q 0
  if !before.active then
    (Except.ok ("already_stopped", before), [ObsEvent.statusQuery])
  else
    let rr := withRetry stopOut retries delayMs
    let cmdEvents := retryEvents ObsEvent.stopCmd rr.2.1 rr.2.2
    match rr.1 with
    | Except.error e => (Except.error e, ObsEvent.statusQuery :: cmdEvents)
    | Except.ok _ =>
      let ens := ensureStreamState (fun k => q (k + 1)) false timeout pollMs
        "stop"
      match ens.1 with
      | Except.ok after =>
        (Except.ok ("stopped", after),
         ObsEvent.statusQuery :: cmdEvents ++ ens.2)
      | Except.error e =>
        (Except.error e, ObsEvent.statusQuery :: cmdEvents ++ ens.2)

/-- A sequence of rate-limit admission decisions for one action: fold
`canRunAction` over the arrival times, counting admitted requests.
(Spec harness over the source function, used to state the per-window
admission bound.) -/
def runCalls (limit : Nat) (action : String) :
    List Nat → List (String × RateBucket) → Nat × List (String × RateBucket)
  | [], rate => (0, rate)
  | t :: ts, rate =>
    let r := canRunAction limit t rate action
    let rest := runCalls limit action ts r.2
    ((if r.1 then 1 else 0) + rest.1, rest.2)

/-! Concrete fixtures used by the witness theorems. -/

/-- A stand-in for the SHA-1 oracle at concrete inputs. -/
def wSha : String → String :=
  fun _ => "da39a3ee5e6b4b0d3255bfef95601890afd80709"

def wFresh1 : FreshIds :=
  { reqHex := "aaaaaaaaaaaaaaaa", jobHex := "1111111111111111" }

def wFresh2 : FreshIds :=
  { reqHex := "bbbbbbbbbbbbbbbb", jobHex := "2222222222222222" }

/-- The empty server state at process start. -/
def wState0 : ServerState := { jobs := [], idem := [], rate := [] }

/-- A request carrying an `args` key outside `twitch.set_title`'s
allowed set. -/
def wPayloadUnexpected : Payload :=
  { request_id := "abcd", agent_id := "bot-1", action := "twitch.set_title",
    args := [("bogus", JVal.jstr "x"), ("title", JVal.jstr "t")],
    mission_id := "", correlation_id := "" }

/-- An async request whose `request_id` ("ab") fails the
`normalizeId` pattern (too short). -/
def c2Payload : Payload :=
  { request_id := "ab", agent_id := "bot-1", action := "twitch.stop_stream",
    args := [], mission_id := "", correlation_id := "" }

/-- An async request with a pattern-valid `request_id`. -/
def c2ValidPayload : Payload :=
  { request_id := "abcd", agent_id := "bot-1", action := "twitch.stop_stream",
    args := [], mission_id := "", correlation_id := "" }

/-- The normalized form of `c2ValidPayload`. -/
def c2Norm : NormalizedRequest :=
  { request_id := some "abcd", agent_id := "bot-1",
    action := "twitch.stop_stream", args := [], mission_id := none,
    correlation_id := none }

/-- An async request with none of `request_id`, `mission_id`,
`correlation_id`. -/
def c6NoIdPayload : Payload :=
  { request_id := "", agent_id := "bot-1", action := "twitch.start_stream",
    args := [("channel", JVal.jstr "chan")], mission_id := "",
    correlation_id := "" }

/-- The same request carrying a `mission_id`. -/
def c6MissionPayload : Payload :=
  { request_id := "", agent_id := "bot-1", action := "twitch.start_stream",
    args := [("channel", JVal.jstr "chan")], mission_id := "m-123",
    correlation_id := "" }

/-- The normalized form of `c6MissionPayload`. -/
def c6Norm : NormalizedRequest :=
  { request_id := none, agent_id := "bot-1",
    action := "twitch.start_stream", args := [("channel", JVal.jstr "chan")],
    mission_id := some "m-123", correlation_id := none }

/-- A freshly created job. -/
def c4Job : Job :=
  createJob 0 "1111111111111111" "twitch.start_stream" "req_x" "bot-1"
    none none []

def c7Job : Job :=
  createJob 0 "1111111111111111" "twitch.start_stream" "req_x" "bot-1"
    none none []

/-- A job still in `running` state, created at t = 100 ms. -/
def c7RunningJob : Job :=
  { c7Job with
    id := "tool_2222222222222222",
    status := "running",
    created_at := 100 }

/-- A store with two jobs (one still running) and one orphaned
idempotency entry. -/
def c7State : ServerState :=
  { jobs := [("tool_1111111111111111", c7Job),
             ("tool_2222222222222222", c7RunningJob)],
    idem := [("twitch.start_stream:req_x", "tool_1111111111111111"),
             ("twitch.start_stream:req_y", "tool_2222222222222222"),
             ("twitch.start_stream:req_z", "tool_gone")],
    rate := [] }

/-- An attempt oracle that fails once, then succeeds. -/
def c8Fn1 : Nat → Except String Nat :=
  fun a => if a = 2 then Except.ok 7 else Except.error "e1"

/-- An attempt oracle that always fails. -/
def c8Fn2 : Nat → Except String Nat := fun _ => Except.error "boom"

def c8Poll : Nat → StreamState :=
  fun _ => { active := false, outputState := "stopped" }

def c8Poll2 : Nat → StreamState :=
  fun a => { active := a != 0, outputState := "x" }

def c8StartOut : Nat → Except String Unit := fun _ => Except.ok ()

def c9Inactive : Nat → StreamState :=
  fun _ => { active := false, outputState := "stopped" }

def c9Active : Nat → StreamState :=
  fun _ => { active := true, outputState := "started" }

def c9Cmd : Nat → Except String Unit := fun _ => Except.ok ()

/-! Helper lemmas about the association-list operations. -/

theorem alookup_aset_self {β : Type} (l : List (String × β)) (k : String)
    (v : β) : alookup (aset l k v) k = some v := by
  induction l with
  | nil => simp [aset, alookup]
  | cons hd tl ih =>
    by_cases h : hd.1 = k
    · simp [aset, h, alookup]
    · simp [aset, h, alookup, ih]

theorem alookup_aset_ne {β : Type} (l : List (String × β)) (k k2 : String)
    (v : β) (h : k ≠ k2) : alookup (aset l k2 v) k = alookup l k := by
  have h2 : ¬ (k2 = k) := fun hh => h hh.symm
  induction l with
  | nil => simp [aset, alookup, h2]
  | cons hd tl ih =>
    obtain ⟨k0, w⟩ := hd
    by_cases h3 : k0 = k2
    · subst h3
      simp [aset, alookup, h2]
    · by_cases h4 : k0 = k
      · subst h4
        simp [aset, alookup, h3]
      · simp [aset, h3, alookup, h4, ih]

theorem alookup_none_of_not_mem {β : Type} (l : List (String × β))
    (k : String) (h : ∀ e ∈ l, e.1 ≠ k) : alookup l k = none := by
  induction l with
  | nil => rfl
  | cons hd tl ih =>
    simp only [alookup]
    rw [if_neg (h hd (List.mem_cons_self hd tl))]
    exact ih (fun e he => h e (List.mem_cons_of_mem _ he))

theorem append_ne_of_ne (a : String) {b c : String} (h : b ≠ c) :
    a ++ b ≠ a ++ c := by
  intro hEq
  apply h
  have hd := congrArg String.data hEq
  simp only [String.data_append] at hd
  exact String.ext (List.append_cancel_left hd)

theorem strOrNone_eq_none (s : String) :
    strOrNone s = none ↔ jsTrim s = "" := by
  by_cases h : jsTrim s = "" <;> simp [strOrNone, h]

/-- What a successful validation guarantees: no unexpected `args`
key, no missing required field, the normalized identity fields, and
the async-identifier guard. -/
theorem validate_ok_spec (p : Payload) (n : NormalizedRequest)
    (h : validateActionPayload p = Except.ok n) :
    hasUnexpectedKey p = false ∧ hasMissingRequired p = false ∧
    n.request_id = strOrNone p.request_id ∧
    n.mission_id = strOrNone p.mission_id ∧
    n.correlation_id = strOrNone p.correlation_id ∧
    n.action = jsTrim p.action ∧ n.agent_id = jsTrim p.agent_id ∧
    (ASYNC_TOOL_ACTIONS.contains (jsTrim p.action) = true →
      ¬(strOrNone p.request_id = none ∧ jsTrim p.mission_id = "" ∧
        jsTrim p.correlation_id = "")) := by
  simp only [validateActionPayload] at h
  split at h
  · exact absurd h (by simp)
  split at h
  · exact absurd h (by simp)
  split at h
  · exact absurd h (by simp)
  case _ schema hschema =>
  split at h
  · exact absurd h (by simp)
  case _ hasyncguard =>
  split at h
  · exact absurd h (by simp)
  case _ hfind =>
  split at h
  · exact absurd h (by simp)
  case _ hreq =>
  split at h
  · exact absurd h (by simp)
  case _ args2 happ =>
  split at h
  · exact absurd h (by simp)
  case _ hgame =>
  have hn := (Except.ok.injEq _ _).mp h
  constructor
  · simp only [hasUnexpectedKey, hschema]
    simp only [List.find?_eq_none] at hfind
    simp only [List.any_eq_false]
    intro x hx
    simpa using hfind x hx
  constructor
  · simp only [hasMissingRequired, hschema]
    simp only [List.find?_eq_none] at hreq
    simp only [List.any_eq_false]
    intro x hx
    simpa using hreq x hx
  refine ⟨?_, ?_, ?_, ?_, ?_, ?_⟩
  · rw [← hn]
  · rw [← hn]
  · rw [← hn]
  · rw [← hn]
  · rw [← hn]
  · intro hasync hbad
    exact hasyncguard ⟨hasync, hbad.1, hbad.2.1, hbad.2.2⟩

theorem submit_of_validate_error (sha1hex : String → String) (limit now : Nat)
    (fresh : FreshIds) (p : Payload) (st : ServerState) (m : String)
    (h : validateActionPayload p = Except.error m) :
    submitAction sha1hex limit now fresh p st =
      (SubmitResponse.validationError m, st, []) := by
  simp only [submitAction, h]

theorem submit_of_validate_not_ok (sha1hex : String → String) (limit now : Nat)
    (fresh : FreshIds) (p : Payload) (st : ServerState)
    (h : ∀ n, validateActionPayload p ≠ Except.ok n) :
    submitAction sha1hex limit now fresh p st =
      (SubmitResponse.validationError (validateErrMsg p), st, []) := by
  cases hv : validateActionPayload p with
  | error m =>
    rw [submit_of_validate_error sha1hex limit now fresh p st m hv]
    simp [validateErrMsg, hv]
  | ok n => exact absurd hv (h n)

/-- C1: a request whose `args` carry a key outside the action's
allowed set, or whose `args` are missing a required field (absent,
null, or empty after trimming), is rejected by `POST /tools/execute`
with a validation error before any side effect: the returned server
state is the input state unchanged (no job created, no idempotency
entry added, no rate-limit bucket touched) and no executor invocation
is scheduled. -/
theorem c1_schema_violation_rejected (sha1hex : String → String)
    (limit now : Nat) (fresh : FreshIds) (p : Payload) (st : ServerState)
    (h : hasUnexpectedKey p = true ∨ hasMissingRequired p = true) :
    submitAction sha1hex limit now fresh p st =
      (SubmitResponse.validationError (validateErrMsg p), st, []) := by
  apply submit_of_validate_not_ok
  intro n hv
  have hs := validate_ok_spec p n hv
  rcases h with h | h
  · rw [hs.1] at h; cases h
  · rw [hs.2.1] at h; cases h

/-- C1 witness: a `twitch.set_title` request with an unexpected
`bogus` field is rejected and leaves the empty state untouched. -/
theorem c1_witness :
    submitAction wSha 60 0 wFresh1 wPayloadUnexpected wState0 =
      (SubmitResponse.validationError (validateErrMsg wPayloadUnexpected),
       wState0, []) :=
  c1_schema_violation_rejected wSha 60 0 wFresh1 wPayloadUnexpected wState0
    (Or.inl (by decide))

/-- C2 counterexample: the claim fails as stated.  With `request_id`
"ab" (which fails the `normalizeId` pattern `^[\w.-]{4,120}$`), two
submissions of the identical request while the first job is still in
the store do NOT replay: the second returns a brand-new job id,
schedules a second executor invocation, and the store ends up with
two jobs. -/
theorem c2_counterexample :
    (submitAction wSha 60 5 wFresh2 c2Payload
        (submitAction wSha 60 0 wFresh1 c2Payload wState0).2.1).1 =
      SubmitResponse.asyncQueued "tool_2222222222222222" "queued" 5
        "req_bbbbbbbbbbbbbbbb" ∧
    (submitAction wSha 60 5 wFresh2 c2Payload
        (submitAction wSha 60 0 wFresh1 c2Payload wState0).2.1).2.2.length
      = 1 ∧
    (submitAction wSha 60 5 wFresh2 c2Payload
        (submitAction wSha 60 0 wFresh1 c2Payload wState0).2.1).2.1.jobs.length
      = 2 := by decide

/-- C2 (amended): for an async action submitted twice with the same
`request_id` whose trimmed form matches the `normalizeId` pattern
`^[\w.-]{4,120}$`, while the job created by the first submission is
still in the store, the second submission returns the existing job's
summary (same job id), the job and idempotency maps are unchanged by
the second call, and no second executor invocation is scheduled. -/
theorem c2_amended_idempotent_replay
    (sha1hex : String → String) (limit now1 now2 : Nat)
    (fresh1 fresh2 : FreshIds) (p : Payload) (st : ServerState)
    (n : NormalizedRequest) (rid : String)
    (hv : validateActionPayload p = Except.ok n)
    (ha : ASYNC_TOOL_ACTIONS.contains n.action = true)
    (hr : n.request_id = some rid)
    (hp : validNormalizedIdPattern (jsTrim rid) = true)
    (hkey : alookup st.idem (n.action ++ ":" ++ jsTrim rid) = none)
    (hadmit1 : (canRunAction limit now1 st.rate n.action).1 = true)
    (hadmit2 : (canRunAction limit now2
        ((submitAction sha1hex limit now1 fresh1 p st).2.1).rate n.action).1
      = true) :
    submitAction sha1hex limit now2 fresh2 p
        ((submitAction sha1hex limit now1 fresh1 p st).2.1) =
      (SubmitResponse.asyncReplay (jobSummary
        (createJob now1 fresh1.jobHex n.action (jsTrim rid) n.agent_id
          n.mission_id
          (match n.correlation_id with
           | some c => some c
           | none => n.mission_id) n.args)),
       { (submitAction sha1hex limit now1 fresh1 p st).2.1 with
         rate := (canRunAction limit now2
           ((submitAction sha1hex limit now1 fresh1 p st).2.1).rate
           n.action).2 },
       []) := by
  have hderive1 : deriveRequestId sha1hex fresh1 n = jsTrim rid := by
    simp [deriveRequestId, hr, normalizeId, hp]
  have hderive2 : deriveRequestId sha1hex fresh2 n = jsTrim rid := by
    simp [deriveRequestId, hr, normalizeId, hp]
  have e1 : submitAction sha1hex limit now1 fresh1 p st =
      asyncCreate now1 fresh1 n (jsTrim rid)
        (match n.correlation_id with
         | some c => some c
         | none => n.mission_id)
        { st with rate := (canRunAction limit now1 st.rate n.action).2 } := by
    simp only [submitAction, hv, hadmit1, if_true, submitAdmitted, hderive1,
      ha, submitAsync, hkey]
  rw [e1] at hadmit2 ⊢
  simp only [asyncCreate] at hadmit2 ⊢
  simp only [submitAction, hv, hadmit2, if_true, submitAdmitted, hderive2,
    ha, submitAsync]
  simp only [alookup_aset_self]

/-- C2 witness: the amended replay at `request_id` "abcd". -/
theorem c2_amended_witness :
    submitAction wSha 60 5 wFresh2 c2ValidPayload
        ((submitAction wSha 60 0 wFresh1 c2ValidPayload wState0).2.1) =
      (SubmitResponse.asyncReplay (jobSummary
        (createJob 0 wFresh1.jobHex c2Norm.action (jsTrim "abcd")
          c2Norm.agent_id c2Norm.mission_id
          (match c2Norm.correlation_id with
           | some c => some c
           | none => c2Norm.mission_id) c2Norm.args)),
       { (submitAction wSha 60 0 wFresh1 c2ValidPayload wState0).2.1 with
         rate := (canRunAction 60 5
           ((submitAction wSha 60 0 wFresh1 c2ValidPayload wState0).2.1).rate
           c2Norm.action).2 },
       []) :=
  c2_amended_idempotent_replay wSha 60 0 5 wFresh1 wFresh2 c2ValidPayload
    wState0 c2Norm "abcd" rfl (by decide) (by decide) (by decide)
    (by decide) (by decide) (by decide)

/-- C4: when the background execution of a job settles, the job's
status is terminal.  For every handler outcome the final status is
`done` or `failed`; a thrown error of any kind is captured into the
`failed` state with its message preserved in `result.error`; a
successful handler response is recorded verbatim in `result` with
status `done`.  The model function is total — no exception escapes
the settlement (the dispatcher additionally attaches
`.catch(() => {})` at the call site, src/index.js:1146) — so no job
remains `running` after its execution has settled. -/
theorem c4_background_execution_settles_terminal
    (now : Nat) (job : Job) (action : String)
    (outcome : Except String HandlerResp) (e : String) (resp : HandlerResp)
    (he : e ≠ "") (hresp : resp.status ≠ "failed")
    (hhandler : (alookup ACTION_TO_HANDLER action).isSome = true) :
    ((executeAsyncToolAction now job action outcome).status = "done" ∨
     (executeAsyncToolAction now job action outcome).status = "failed") ∧
    (executeAsyncToolAction now job action (Except.error e)).status
      = "failed" ∧
    (executeAsyncToolAction now job action (Except.error e)).result.error
      = some e ∧
    (executeAsyncToolAction now job action (Except.ok resp)).status
      = "done" ∧
    (executeAsyncToolAction now job action
      (Except.ok resp)).result.action_response = some resp := by
  obtain ⟨m, halook⟩ := Option.isSome_iff_exists.mp hhandler
  refine ⟨?_, ?_, ?_, ?_, ?_⟩
  · by_cases hh : (alookup ACTION_TO_HANDLER action).isNone = true
    · right
      simp [executeAsyncToolAction, hh, failJob]
    · cases outcome with
      | error e0 =>
        right
        simp [executeAsyncToolAction, hh, failJob]
      | ok r0 =>
        by_cases hf : r0.status = "failed"
        · right
          simp [executeAsyncToolAction, hh, hf, failJob]
        · left
          simp [executeAsyncToolAction, hh, hf]
  · simp [executeAsyncToolAction, halook, failJob]
  · simp [executeAsyncToolAction, halook, failJob, he]
  · simp [executeAsyncToolAction, halook, hresp]
  · simp [executeAsyncToolAction, halook, hresp]

/-- C4 witness: a `twitch.start_stream` job settles to `done` on a
successful response and to `failed` with the message preserved on a
thrown "boom". -/
theorem c4_witness :
    ((executeAsyncToolAction 7 c4Job "twitch.start_stream"
       (Except.ok { status := "running", error := "" })).status = "done" ∨
     (executeAsyncToolAction 7 c4Job "twitch.start_stream"
       (Except.ok { status := "running", error := "" })).status = "failed") ∧
    (executeAsyncToolAction 7 c4Job "twitch.start_stream"
      (Except.error "boom")).status = "failed" ∧
    (executeAsyncToolAction 7 c4Job "twitch.start_stream"
      (Except.error "boom")).result.error = some "boom" ∧
    (executeAsyncToolAction 7 c4Job "twitch.start_stream"
      (Except.ok { status := "running", error := "" })).status = "done" ∧
    (executeAsyncToolAction 7 c4Job "twitch.start_stream"
      (Except.ok { status := "running", error := "" })).result.action_response
      = some { status := "running", error := "" } :=
  c4_background_execution_settles_terminal 7 c4Job "twitch.start_stream"
    (Except.ok { status := "running", error := "" }) "boom"
    { status := "running", error := "" } (by decide) (by decide) (by decide)

theorem runCalls_admitted_le (limit : Nat) (action : String)
    (times : List Nat) :
    ∀ (rate : List (String × RateBucket)) (b : RateBucket),
    alookup rate action = some b →
    (∀ t ∈ times, t - b.start < 60000) →
    (runCalls limit action times rate).1 ≤ limit - b.count := by
  induction times with
  | nil => intro rate b hb hw; simp [runCalls]
  | cons t ts ih =>
    intro rate b hb hw
    have hwt := hw t (List.mem_cons_self t ts)
    have hnoreset : ¬ (t - b.start ≥ 60000) := by omega
    by_cases hc : b.count ≥ limit
    · have hcr : canRunAction limit t rate action =
          (false, aset rate action b) := by
        simp [canRunAction, hb, hnoreset, hc]
      have hrec := ih (aset rate action b) b (alookup_aset_self _ _ _)
        (fun x hx => hw x (List.mem_cons_of_mem _ hx))
      simp only [runCalls, hcr]
      simpa using hrec
    · have hcr : canRunAction limit t rate action =
          (true, aset rate action { b with count := b.count + 1 }) := by
        simp [canRunAction, hb, hnoreset, hc]
      have hrec := ih (aset rate action { b with count := b.count + 1 })
        { b with count := b.count + 1 } (alookup_aset_self _ _ _)
        (fun x hx => hw x (List.mem_cons_of_mem _ hx))
      simp only [runCalls, hcr]
      simp only [if_true]
      simp at hrec ⊢
      omega

/-- C5: rate-limit admission uses a single per-action bucket —
`canRunAction` takes only the action name, so the decision is
independent of which agent issued the request.  Within one 60-second
window a bucket holding count `c` admits at most `limit - c` further
requests (so a fresh window admits at most `limit`); a request
arriving while the count is at or above the limit is rejected and the
stored bucket is unchanged; and when the current time is at least
60 s past the window start, count and window start are reset and the
next request is admitted (for a positive configured limit). -/
theorem c5_rate_limit_per_action
    (limit : Nat) (action : String) (times : List Nat)
    (rate1 : List (String × RateBucket)) (b1 : RateBucket)
    (rate2 : List (String × RateBucket)) (b2 : RateBucket) (now2 : Nat)
    (rate3 : List (String × RateBucket)) (b3 : RateBucket) (now3 : Nat)
    (hb1 : alookup rate1 action = some b1)
    (hw1 : ∀ t ∈ times, t - b1.start < 60000)
    (hb2 : alookup rate2 action = some b2)
    (hwin2 : now2 - b2.start < 60000)
    (hfull2 : b2.count ≥ limit)
    (hb3 : alookup rate3 action = some b3)
    (hexp3 : now3 - b3.start ≥ 60000)
    (hpos : 0 < limit) :
    (runCalls limit action times rate1).1 ≤ limit - b1.count ∧
    canRunAction limit now2 rate2 action = (false, aset rate2 action b2) ∧
    alookup (canRunAction limit now2 rate2 action).2 action = some b2 ∧
    canRunAction limit now3 rate3 action =
      (true, aset rate3 action { start := now3, count := 1 }) := by
  have hnr2 : ¬ (now2 - b2.start ≥ 60000) := by omega
  have h2 : canRunAction limit now2 rate2 action =
      (false, aset rate2 action b2) := by
    simp [canRunAction, hb2, hnr2, hfull2]
  refine ⟨runCalls_admitted_le limit action times rate1 b1 hb1 hw1, h2,
    ?_, ?_⟩
  · rw [h2]
    exact alookup_aset_self _ _ _
  · simp [canRunAction, hb3, hexp3]
    omega

/-- C5 witness: with limit 2 a fresh bucket admits at most 2 of 4
requests in one window; a full bucket rejects without change; after
rollover the request is admitted with a reset bucket. -/
theorem c5_witness :
    (runCalls 2 "twitch.set_title" [0, 1, 2, 3]
      [("twitch.set_title", { start := 0, count := 0 })]).1 ≤
      2 - ({ start := 0, count := 0 } : RateBucket).count ∧
    canRunAction 2 10 [("twitch.set_title", { start := 0, count := 2 })]
        "twitch.set_title" =
      (false, aset [("twitch.set_title", { start := 0, count := 2 })]
        "twitch.set_title" { start := 0, count := 2 }) ∧
    alookup (canRunAction 2 10
        [("twitch.set_title", { start := 0, count := 2 })]
        "twitch.set_title").2 "twitch.set_title" =
      some { start := 0, count := 2 } ∧
    canRunAction 2 60000 [("twitch.set_title", { start := 0, count := 2 })]
        "twitch.set_title" =
      (true, aset [("twitch.set_title", { start := 0, count := 2 })]
        "twitch.set_title" { start := 60000, count := 1 }) :=
  c5_rate_limit_per_action 2 "twitch.set_title" [0, 1, 2, 3]
    [("twitch.set_title", { start := 0, count := 0 })]
    { start := 0, count := 0 }
    [("twitch.set_title", { start := 0, count := 2 })]
    { start := 0, count := 2 } 10
    [("twitch.set_title", { start := 0, count := 2 })]
    { start := 0, count := 2 } 60000
    (by decide) (by decide) (by decide) (by decide) (by decide) (by decide)
    (by decide) (by decide)

/-- C6: an async action request carrying none of `request_id`,
`mission_id`, `correlation_id` is rejected at validation before any
state change or dedup-key derivation; and for every admitted
(validated) async request, the idempotency seed is one of those three
caller-supplied identifiers — the `action:agent_id` fallback branch
is never taken for an admitted async request. -/
theorem c6_async_requires_identifier
    (sha1hex : String → String) (limit now : Nat) (fresh : FreshIds)
    (p q : Payload) (st : ServerState) (nq : NormalizedRequest)
    (hasync : ASYNC_TOOL_ACTIONS.contains (jsTrim p.action) = true)
    (hrid : strOrNone p.request_id = none)
    (hmid : jsTrim p.mission_id = "")
    (hcid : jsTrim p.correlation_id = "")
    (hq : validateActionPayload q = Except.ok nq)
    (hqasync : ASYNC_TOOL_ACTIONS.contains nq.action = true) :
    submitAction sha1hex limit now fresh p st =
      (SubmitResponse.validationError (validateErrMsg p), st, []) ∧
    (nq.request_id = some (idempotencySeed nq) ∨
     nq.mission_id = some (idempotencySeed nq) ∨
     nq.correlation_id = some (idempotencySeed nq)) := by
  constructor
  · apply submit_of_validate_not_ok
    intro n hvp
    have hs := validate_ok_spec p n hvp
    exact hs.2.2.2.2.2.2.2 hasync ⟨hrid, hmid, hcid⟩
  · have hs := validate_ok_spec q nq hq
    rw [hs.2.2.2.2.2.1] at hqasync
    have hg := hs.2.2.2.2.2.2.2 hqasync
    cases hreq : nq.request_id with
    | some r => left; simp [idempotencySeed, hreq]
    | none =>
      cases hmis : nq.mission_id with
      | some m =>
        right; left; simp [idempotencySeed, hreq, hmis]
      | none =>
        cases hcor : nq.correlation_id with
        | some c =>
          right; right; simp [idempotencySeed, hreq, hmis, hcor]
        | none =>
          exfalso
          apply hg
          refine ⟨?_, ?_, ?_⟩
          · rw [← hs.2.2.1, hreq]
          · exact (strOrNone_eq_none q.mission_id).mp
              (by rw [← hs.2.2.2.1, hmis])
          · exact (strOrNone_eq_none q.correlation_id).mp
              (by rw [← hs.2.2.2.2.1, hcor])

/-- C6 witness: a `twitch.start_stream` request with no identifiers
is rejected; the same request with `mission_id` "m-123" derives its
seed from the mission id. -/
theorem c6_witness :
    (submitAction wSha 60 0 wFresh1 c6NoIdPayload wState0 =
      (SubmitResponse.validationError (validateErrMsg c6NoIdPayload),
       wState0, [])) ∧
    (c6Norm.request_id = some (idempotencySeed c6Norm) ∨
     c6Norm.mission_id = some (idempotencySeed c6Norm) ∨
     c6Norm.correlation_id = some (idempotencySeed c6Norm)) :=
  c6_async_requires_identifier wSha 60 0 wFresh1 c6NoIdPayload
    c6MissionPayload wState0 c6Norm (by decide) (by decide) (by decide)
    (by decide) rfl (by decide)

theorem sweepJobs_subset (now ttl : Nat) (l : List (String × Job))
    (e : String × Job) (he : e ∈ sweepJobs now ttl l) : e ∈ l := by
  induction l with
  | nil => cases he
  | cons hd tl ih =>
    simp only [sweepJobs] at he
    split at he
    · exact List.mem_cons_of_mem _ (ih he)
    · rcases List.mem_cons.mp he with h | h
      · exact h ▸ List.mem_cons_self hd tl
      · exact List.mem_cons_of_mem _ (ih h)

theorem sweepJobs_lookup_none (now ttl : Nat) (l : List (String × Job))
    (i : String) (j : Job) (hnd : (l.map Prod.fst).Nodup)
    (hl : alookup l i = some j) (hexp : now - j.created_at > ttl) :
    alookup (sweepJobs now ttl l) i = none := by
  induction l with
  | nil => cases hl
  | cons hd tl ih =>
    obtain ⟨k0, v0⟩ := hd
    simp only [alookup] at hl
    simp only [List.map_cons, List.nodup_cons] at hnd
    by_cases hk : k0 = i
    · rw [if_pos hk] at hl
      have hv : v0 = j := Option.some.injEq _ _ ▸ hl
      subst hv
      subst hk
      simp only [sweepJobs]
      rw [if_pos hexp]
      apply alookup_none_of_not_mem
      intro e he
      intro heq
      apply hnd.1
      have hmem := sweepJobs_subset now ttl tl e he
      exact heq ▸ List.mem_map_of_mem Prod.fst hmem
    · rw [if_neg hk] at hl
      simp only [sweepJobs]
      split
      · exact ih hnd.2 hl
      · simp only [alookup]
        rw [if_neg hk]
        exact ih hnd.2 hl

theorem sweepIdem_sound (jobs2 : List (String × Job))
    (idem : List (String × String)) (k jid : String)
    (hmem : (k, jid) ∈ sweepIdem jobs2 idem) :
    (alookup jobs2 jid).isSome = true := by
  induction idem with
  | nil => cases hmem
  | cons hd tl ih =>
    obtain ⟨k0, j0⟩ := hd
    simp only [sweepIdem] at hmem
    split at hmem
    · rcases List.mem_cons.mp hmem with h | h
      · cases h
        assumption
      · exact ih h
    · exact ih hmem

/-- C7: a job whose age from `created_at` exceeds the TTL at sweep
time is absent from the job store after the sweep pass, regardless of
its status (the filter never reads `status`, and the statement
quantifies over arbitrary job records, including `queued` and
`running` ones); and in the same pass every idempotency entry whose
referenced job id is no longer in the store is removed, so every
surviving entry maps to an existing job.  (The sweep runs on a fixed
60-second interval, src/index.js:1191, so "after T+Δ+ε" is read up to
that granularity: the property holds at the first sweep past
expiry.) -/
theorem c7_ttl_eviction_and_idempotency_pruning
    (now ttl : Nat) (st : ServerState) (i : String) (j : Job)
    (hnd : (st.jobs.map Prod.fst).Nodup)
    (hl : alookup st.jobs i = some j)
    (hexp : now - j.created_at > ttl) :
    alookup (sweep now ttl st).jobs i = none ∧
    ∀ k jid, (k, jid) ∈ (sweep now ttl st).idem →
      ∃ j2, alookup (sweep now ttl st).jobs jid = some j2 := by
  constructor
  · exact sweepJobs_lookup_none now ttl st.jobs i j hnd hl hexp
  · intro k jid hmem
    exact Option.isSome_iff_exists.mp
      (sweepIdem_sound (sweepJobs now ttl st.jobs) st.idem k jid hmem)

/-- C7 witness: after a sweep at t = 7200301 ms with a 2-hour TTL,
the `running` job created at t = 100 is gone and every surviving
idempotency entry points at an existing job. -/
theorem c7_witness :
    alookup (sweep 7200301 7200000 c7State).jobs "tool_2222222222222222"
      = none ∧
    ∀ k jid, (k, jid) ∈ (sweep 7200301 7200000 c7State).idem →
      ∃ j2, alookup (sweep 7200301 7200000 c7State).jobs jid = some j2 :=
  c7_ttl_eviction_and_idempotency_pruning 7200301 7200000 c7State
    "tool_2222222222222222" c7RunningJob (by decide) (by decide) (by decide)
theorem withRetryGo_count_le {α : Type} (fn : Nat → Except String α)
    (delay : Nat) : ∀ (fuel attempt : Nat),
    (withRetryGo fn delay attempt fuel).2.1 ≤ fuel := by
  intro fuel
  induction fuel with
  | zero => intro attempt; simp [withRetryGo]
  | succ f ih =>
    intro attempt
    simp only [withRetryGo]
    cases fn (attempt + 1) with
    | ok v => simp
    | error e =>
      by_cases hf : f = 0
      · simp [hf]
      · simp only [hf, if_false]
        have := ih (attempt + 1)
        simp
        omega

theorem withRetryGo_success {α : Type} (fn : Nat → Except String α)
    (delay : Nat) : ∀ (k attempt fuel : Nat) (v : α),
    (∀ j, j < k → ∃ e, fn (attempt + j + 1) = Except.error e) →
    fn (attempt + k + 1) = Except.ok v →
    k < fuel →
    withRetryGo fn delay attempt fuel =
      (Except.ok v, k + 1,
       (List.range k).map (fun i => delay * 2 ^ (attempt + i))) := by
  intro k
  induction k with
  | zero =>
    intro attempt fuel v hfail hok hlt
    obtain ⟨f, rfl⟩ := Nat.exists_eq_succ_of_ne_zero (Nat.pos_iff_ne_zero.mp hlt)
    simp only [withRetryGo]
    rw [hok]
    simp
  | succ k ih =>
    intro attempt fuel v hfail hok hlt
    obtain ⟨f, rfl⟩ := Nat.exists_eq_succ_of_ne_zero
      (Nat.pos_iff_ne_zero.mp (Nat.lt_of_le_of_lt (Nat.zero_le _) hlt))
    obtain ⟨e0, he0⟩ := hfail 0 (Nat.succ_pos k)
    simp only [withRetryGo]
    rw [he0]
    have hf : f ≠ 0 := by omega
    simp only [hf, if_false]
    have hrec := ih (attempt + 1) f v
      (fun j hj => by
        have := hfail (j + 1) (Nat.succ_lt_succ hj)
        simpa [Nat.add_assoc, Nat.add_comm, Nat.add_left_comm] using this)
      (by simpa [Nat.add_assoc, Nat.add_comm, Nat.add_left_comm] using hok)
      (by omega)
    rw [hrec]
    rw [List.range_succ_eq_map]
    simp only [List.map_cons, List.map_map]
    simp only [Prod.mk.injEq, true_and]
    have hhead : delay * 2 ^ attempt = delay * 2 ^ (attempt + 0) := by simp
    have htail : List.map (fun i => delay * 2 ^ (attempt + 1 + i))
        (List.range k) =
        List.map ((fun i => delay * 2 ^ (attempt + i)) ∘ Nat.succ)
          (List.range k) := by
      apply List.map_congr_left
      intro i hi
      have harith : attempt + 1 + i = attempt + Nat.succ i := by omega
      simp [Function.comp, harith]
    rw [← hhead, ← htail]

theorem withRetryGo_allfail {α : Type} (fn : Nat → Except String α)
    (delay : Nat) : ∀ (fuel attempt : Nat) (e : String),
    (∀ j, j < fuel → ∃ e2, fn (attempt + j + 1) = Except.error e2) →
    fn (attempt + fuel) = Except.error e →
    1 ≤ fuel →
    withRetryGo fn delay attempt fuel =
      (Except.error e, fuel,
       (List.range (fuel - 1)).map (fun i => delay * 2 ^ (attempt + i))) := by
  intro fuel
  induction fuel with
  | zero => intro attempt e hfail hlast h1; omega
  | succ f ih =>
    intro attempt e hfail hlast h1
    by_cases hf : f = 0
    · subst hf
      simp only [withRetryGo]
      rw [show attempt + 1 = attempt + 0 + 1 by omega] at hlast
      rw [hlast]
      simp
    · obtain ⟨e0, he0⟩ := hfail 0 (Nat.succ_pos f)
      simp only [withRetryGo]
      rw [he0]
      simp only [hf, if_false]
      have hrec := ih (attempt + 1) e
        (fun j hj => by
          have := hfail (j + 1) (Nat.succ_lt_succ hj)
          simpa [Nat.add_assoc, Nat.add_comm, Nat.add_left_comm] using this)
        (by
          rw [show attempt + 1 + f = attempt + (f + 1) by omega]
          exact hlast)
        (by omega)
      rw [hrec]
      simp only [Prod.mk.injEq, true_and]
      obtain ⟨g, rfl⟩ := Nat.exists_eq_succ_of_ne_zero hf
      simp only [Nat.succ_sub_one]
      have hhead : delay * 2 ^ attempt = delay * 2 ^ (attempt + 0) := by simp
      have htail : List.map (fun i => delay * 2 ^ (attempt + 1 + i))
          (List.range g) =
          List.map ((fun i => delay * 2 ^ (attempt + i)) ∘ Nat.succ)
            (List.range g) := by
        apply List.map_congr_left
        intro i hi
        have harith : attempt + 1 + i = attempt + Nat.succ i := by omega
        simp [Function.comp, harith]
      rw [List.range_succ_eq_map]
      simp only [List.map_cons, List.map_map]
      rw [← hhead, ← htail]

theorem ensureGo_events_poll_only (q : Nat → StreamState) (target : Bool)
    (timeout pollMs : Nat) (label : String) :
    ∀ (fuel k : Nat) (last : Option StreamState) (ev : ObsEvent),
    ev ∈ (ensureGo q target timeout pollMs label k last fuel).2 →
    ev = ObsEvent.statusQuery ∨ ev = ObsEvent.pollWait pollMs := by
  intro fuel
  induction fuel with
  | zero => intro k last ev hev; cases hev
  | succ f ih =>
    intro k last ev hev
    simp only [ensureGo] at hev
    split at hev
    · split at hev
      · rcases List.mem_singleton.mp hev with rfl
        exact Or.inl rfl
      · rcases List.mem_cons.mp hev with rfl | hev2
        · exact Or.inl rfl
        · rcases List.mem_cons.mp hev2 with rfl | hev3
          · exact Or.inr rfl
          · exact ih (k + 1) (some (q k)) ev hev3
    · cases hev

theorem retryEvents_start_count_le :
    ∀ (n : Nat) (ws : List Nat),
    (retryEvents ObsEvent.startCmd n ws).count ObsEvent.startCmd ≤ n := by
  intro n
  induction n with
  | zero => intro ws; simp [retryEvents]
  | succ m ih =>
    intro ws
    cases ws with
    | nil => simp [retryEvents]
    | cons w rest =>
      simp only [retryEvents, List.count_cons]
      have := ih rest
      simp
      omega

theorem events_count_start_zero_of_poll_only (events : List ObsEvent) (pm : Nat)
    (h : ∀ ev ∈ events, ev = ObsEvent.statusQuery ∨ ev = ObsEvent.pollWait pm) :
    events.count ObsEvent.startCmd = 0 := by
  rw [List.count_eq_zero]
  intro hmem
  rcases h ObsEvent.startCmd hmem with h2 | h2 <;> cases h2

theorem obsStartStream_start_count_le (sceneName : String)
    (sceneOutcome : Except String Unit) (q : Nat → StreamState)
    (startOut : Nat → Except String Unit)
    (retries delayMs timeout pollMs : Nat) :
    ((obsStartStream sceneName sceneOutcome q startOut retries delayMs
      timeout pollMs).2).count ObsEvent.startCmd ≤ retries + 1 := by
  have hscene : (if sceneName = "" then ([] : List ObsEvent)
      else [ObsEvent.setSceneCmd sceneName]).count ObsEvent.startCmd = 0 := by
    by_cases hs : sceneName = "" <;> simp [hs]
  have hretry : (retryEvents ObsEvent.startCmd
      (withRetry startOut retries delayMs).2.1
      (withRetry startOut retries delayMs).2.2).count ObsEvent.startCmd
      ≤ retries + 1 :=
    le_trans (retryEvents_start_count_le _ _)
      (withRetryGo_count_le startOut delayMs (retries + 1) 0)
  have hens : (ensureStreamState (fun k => q (k + 1)) true timeout pollMs
      "start").2.count ObsEvent.startCmd = 0 :=
    events_count_start_zero_of_poll_only _ pollMs
      (fun ev hev => ensureGo_events_poll_only _ true timeout pollMs "start"
        (timeout + 1) 0 none ev hev)
  simp only [obsStartStream]
  split
  · simp [hscene]
  · split
    · simp [List.count_append, hscene]
    · split
      · simp only [List.count_append, hscene]
        simpa using hretry
      · split
        · simp only [List.count_append, hscene, hens]
          simpa using hretry
        · simp only [List.count_append, hscene, hens]
          simpa using hretry
/-- C8: `withRetry(fn, {retries, delayMs})` invokes `fn` at most
`retries + 1` times; it returns the value of the first succeeding
invocation (after `k` failures it returns attempt `k+1`'s value,
having made exactly `k+1` invocations); if every invocation fails it
throws the error of the last attempt after exactly `retries + 1`
invocations; the wait before the k-th retry is `delayMs * 2^(k-1)`
(the wait lists below are exactly `[delayMs * 2^0, ..., ]`); and the
retry wraps only the command-issuance step: the poll loop
(`ensureStreamState`) emits only status queries and poll waits —
never a command or a backoff — and a whole `startStream` call issues
the `StartStream` command at most `retries + 1` times. -/

theorem c8_retry_policy {A : Type} (fn1 fn2 fn3 : Nat → Except String A)
    (retries delayMs k : Nat) (v : A) (e2 : String)
    (q : Nat → StreamState) (target : Bool) (timeout pollMs : Nat)
    (label sceneName : String) (sceneOutcome : Except String Unit)
    (q2 : Nat → StreamState) (startOut : Nat → Except String Unit)
    (hk : k ≤ retries)
    (hjk : ∀ j, j < k → ∃ e, fn1 (j + 1) = Except.error e)
    (hok : fn1 (k + 1) = Except.ok v)
    (hall : ∀ j, j < retries + 1 → ∃ e, fn2 (j + 1) = Except.error e)
    (hlast : fn2 (retries + 1) = Except.error e2) :
    (withRetry fn3 retries delayMs).2.1 ≤ retries + 1 ∧
    withRetry fn1 retries delayMs =
      (Except.ok v, k + 1, (List.range k).map (fun i => delayMs * 2 ^ i)) ∧
    withRetry fn2 retries delayMs =
      (Except.error e2, retries + 1,
       (List.range retries).map (fun i => delayMs * 2 ^ i)) ∧
    (∀ ev ∈ (ensureStreamState q target timeout pollMs label).2,
      ev = ObsEvent.statusQuery ∨ ev = ObsEvent.pollWait pollMs) ∧
    ((obsStartStream sceneName sceneOutcome q2 startOut retries delayMs
      timeout pollMs).2).count ObsEvent.startCmd ≤ retries + 1 := by
  refine ⟨withRetryGo_count_le fn3 delayMs (retries + 1) 0, ?_, ?_,
    (fun ev hev => ensureGo_events_poll_only q target timeout pollMs label
      (timeout + 1) 0 none ev hev),
    obsStartStream_start_count_le sceneName sceneOutcome q2 startOut retries
      delayMs timeout pollMs⟩
  · have hs := withRetryGo_success fn1 delayMs k 0 (retries + 1) v
      (fun j hj => by simpa using hjk j hj)
      (by simpa using hok) (by omega)
    simp only [withRetry, hs]
    simp
  · have hs := withRetryGo_allfail fn2 delayMs (retries + 1) 0 e2
      (fun j hj => by simpa using hall j hj)
      (by simpa using hlast) (by omega)
    simp only [withRetry, hs]
    simp


/-- C8 witness: with retries = 2 and base delay 250, a
fail-once-then-succeed oracle is invoked twice with one 250 ms wait;
an always-failing oracle is invoked three times with waits
[250, 500] and throws the last error. -/

theorem c8_witness :
    (withRetry c8Fn2 2 250).2.1 ≤ 2 + 1 ∧
    withRetry c8Fn1 2 250 =
      (Except.ok 7, 1 + 1, (List.range 1).map (fun i => 250 * 2 ^ i)) ∧
    withRetry c8Fn2 2 250 =
      (Except.error "boom", 2 + 1,
       (List.range 2).map (fun i => 250 * 2 ^ i)) ∧
    (∀ ev ∈ (ensureStreamState c8Poll true 2000 700 "start").2,
      ev = ObsEvent.statusQuery ∨ ev = ObsEvent.pollWait 700) ∧
    ((obsStartStream "" (Except.ok ()) c8Poll2 c8StartOut 2 250 2000
      700).2).count ObsEvent.startCmd ≤ 2 + 1 :=
  c8_retry_policy c8Fn1 c8Fn2 c8Fn2 2 250 1 7 "boom" c8Poll true 2000 700
    "start" "" (Except.ok ()) c8Poll2 c8StartOut
    (by decide)
    (by intro j hj; interval_cases j; exact ⟨"e1", rfl⟩)
    rfl
    (by intro j hj; exact ⟨"boom", rfl⟩)
    rfl


/-- C9: a stop request issued while the stream is already inactive
returns status "already_stopped" and its whole event trace is the
single status query — no `StopStream` command is issued;
symmetrically a start request issued while the stream is already
active (with the scene step succeeding or skipped) returns
"already_running" with no `StartStream` command issued. -/

theorem c9_short_circuit_when_target_state_holds
    (q q2 : Nat → StreamState) (stopOut startOut : Nat → Except String Unit)
    (sceneName : String) (sceneOutcome : Except String Unit)
    (retries delayMs timeout pollMs : Nat)
    (hstop : (q 0).active = false)
    (hstart : (q2 0).active = true)
    (hscene : sceneName = "" ∨ sceneOutcome = Except.ok ()) :
    obsStopStream q stopOut retries delayMs timeout pollMs =
      (Except.ok ("already_stopped", q 0), [ObsEvent.statusQuery]) ∧
    obsStartStream sceneName sceneOutcome q2 startOut retries delayMs
      timeout pollMs =
      (Except.ok ("already_running", q2 0),
       (if sceneName = "" then [] else [ObsEvent.setSceneCmd sceneName]) ++
         [ObsEvent.statusQuery]) := by
  constructor
  · simp [obsStopStream, hstop]
  · rcases hscene with hs | hs
    · simp [obsStartStream, hs, hstart]
    · by_cases hn : sceneName = ""
      · simp [obsStartStream, hn, hstart]
      · simp [obsStartStream, hn, hs, hstart]


/-- C9 witness: the short circuits at concrete inactive/active
states. -/

theorem c9_witness :
    obsStopStream c9Inactive c9Cmd 2 500 20000 700 =
      (Except.ok ("already_stopped", c9Inactive 0), [ObsEvent.statusQuery]) ∧
    obsStartStream "" (Except.ok ()) c9Active c9Cmd 2 500 20000 700 =
      (Except.ok ("already_running", c9Active 0),
       (if ("" : String) = "" then [] else [ObsEvent.setSceneCmd ""]) ++
         [ObsEvent.statusQuery]) :=
  c9_short_circuit_when_target_state_holds c9Inactive c9Active c9Cmd c9Cmd
    "" (Except.ok ()) 2 500 20000 700 rfl rfl (Or.inl rfl)


/-- C10: a caller-supplied `request_id` whose trimmed form fails the
pattern `^[\w.-]{4,120}$` (e.g. the 2-character "ab") is discarded
by `JobStore.normalizeId` in favour of a freshly generated random id;
consequently two async submissions carrying that same `request_id`
derive different idempotency keys, and each creates its own job and
schedules its own executor invocation — idempotent replay does not
hold for such request ids. -/

theorem c10_invalid_request_id_not_deduplicated
    (s0 pre hex : String) (sha1hex : String → String) (limit now1 now2 : Nat)
    (fresh1 fresh2 : FreshIds) (p : Payload) (st : ServerState)
    (n : NormalizedRequest) (rid : String)
    (hinv : validNormalizedIdPattern (jsTrim s0) = false)
    (hv : validateActionPayload p = Except.ok n)
    (ha : ASYNC_TOOL_ACTIONS.contains n.action = true)
    (hr : n.request_id = some rid)
    (hpat : validNormalizedIdPattern (jsTrim rid) = false)
    (hhex : fresh1.reqHex ≠ fresh2.reqHex)
    (hjob : fresh1.jobHex ≠ fresh2.jobHex)
    (hkey1 : alookup st.idem (n.action ++ ":" ++ ("req_" ++ fresh1.reqHex))
      = none)
    (hkey2 : alookup st.idem (n.action ++ ":" ++ ("req_" ++ fresh2.reqHex))
      = none)
    (hadmit1 : (canRunAction limit now1 st.rate n.action).1 = true)
    (hadmit2 : (canRunAction limit now2
        ((submitAction sha1hex limit now1 fresh1 p st).2.1).rate n.action).1
      = true) :
    normalizeId (some s0) pre hex = pre ++ "_" ++ hex ∧
    (submitAction sha1hex limit now2 fresh2 p
        ((submitAction sha1hex limit now1 fresh1 p st).2.1)).1 =
      SubmitResponse.asyncQueued ("tool_" ++ fresh2.jobHex) "queued" 5
        ("req_" ++ fresh2.reqHex) ∧
    ("tool_" ++ fresh1.jobHex) ≠ ("tool_" ++ fresh2.jobHex) ∧
    (n.action ++ ":" ++ ("req_" ++ fresh1.reqHex)) ≠
      (n.action ++ ":" ++ ("req_" ++ fresh2.reqHex)) ∧
    (submitAction sha1hex limit now2 fresh2 p
        ((submitAction sha1hex limit now1 fresh1 p st).2.1)).2.2 =
      [{ action := n.action, agent_id := n.agent_id, args := n.args,
         job_id := some ("tool_" ++ fresh2.jobHex) }] ∧
    alookup (submitAction sha1hex limit now2 fresh2 p
        ((submitAction sha1hex limit now1 fresh1 p st).2.1)).2.1.jobs
        ("tool_" ++ fresh1.jobHex) =
      some (createJob now1 fresh1.jobHex n.action ("req_" ++ fresh1.reqHex)
        n.agent_id n.mission_id
        (match n.correlation_id with
         | some c => some c
         | none => n.mission_id) n.args) ∧
    alookup (submitAction sha1hex limit now2 fresh2 p
        ((submitAction sha1hex limit now1 fresh1 p st).2.1)).2.1.jobs
        ("tool_" ++ fresh2.jobHex) =
      some (createJob now2 fresh2.jobHex n.action ("req_" ++ fresh2.reqHex)
        n.agent_id n.mission_id
        (match n.correlation_id with
         | some c => some c
         | none => n.mission_id) n.args) := by
  have hkeyne : (n.action ++ ":" ++ ("req_" ++ fresh1.reqHex)) ≠
      (n.action ++ ":" ++ ("req_" ++ fresh2.reqHex)) :=
    append_ne_of_ne _ (append_ne_of_ne _ hhex)
  have hjobne : ("tool_" ++ fresh1.jobHex) ≠ ("tool_" ++ fresh2.jobHex) :=
    append_ne_of_ne _ hjob
  have hderive1 : deriveRequestId sha1hex fresh1 n = "req_" ++ fresh1.reqHex := by
    simp [deriveRequestId, hr, normalizeId, hpat]
  have hderive2 : deriveRequestId sha1hex fresh2 n = "req_" ++ fresh2.reqHex := by
    simp [deriveRequestId, hr, normalizeId, hpat]
  have e1 : submitAction sha1hex limit now1 fresh1 p st =
      asyncCreate now1 fresh1 n ("req_" ++ fresh1.reqHex)
        (match n.correlation_id with
         | some c => some c
         | none => n.mission_id)
        { st with rate := (canRunAction limit now1 st.rate n.action).2 } := by
    simp only [submitAction, hv, hadmit1, if_true, submitAdmitted, hderive1,
      ha, submitAsync, hkey1]
  rw [e1] at hadmit2 ⊢
  simp only [asyncCreate] at hadmit2 ⊢
  have hid1 : (createJob now1 fresh1.jobHex n.action ("req_" ++ fresh1.reqHex)
      n.agent_id n.mission_id
      (match n.correlation_id with
       | some c => some c
       | none => n.mission_id) n.args).id = "tool_" ++ fresh1.jobHex := by
    simp [createJob, normalizeId]
  simp only [hid1]
  simp only [submitAction, hv, hadmit2, if_true, submitAdmitted, hderive2,
    ha, submitAsync]
  rw [alookup_aset_ne _ _ _ _ hkeyne.symm, hkey2]
  simp only [asyncCreate]
  have hid2 : (createJob now2 fresh2.jobHex n.action ("req_" ++ fresh2.reqHex)
      n.agent_id n.mission_id
      (match n.correlation_id with
       | some c => some c
       | none => n.mission_id) n.args).id = "tool_" ++ fresh2.jobHex := by
    simp [createJob, normalizeId]
  simp only [hid2]
  refine ⟨?_, ?_, ?_, ?_, ?_, ?_, ?_⟩
  · simp [normalizeId, hinv]
  · simp [createJob, buildProgress]
  · exact hjobne
  · exact hkeyne
  · trivial
  · rw [alookup_aset_ne _ _ _ _ hjobne, alookup_aset_self]
  · rw [alookup_aset_self]


/-- C10 witness: two submissions with `request_id` "ab" create two
distinct jobs and two executor invocations. -/

theorem c10_witness :
    normalizeId (some "ab") "req" wFresh1.reqHex =
      "req" ++ "_" ++ wFresh1.reqHex ∧
    (submitAction wSha 60 5 wFresh2 c2Payload
        ((submitAction wSha 60 0 wFresh1 c2Payload wState0).2.1)).1 =
      SubmitResponse.asyncQueued ("tool_" ++ wFresh2.jobHex) "queued" 5
        ("req_" ++ wFresh2.reqHex) ∧
    ("tool_" ++ wFresh1.jobHex) ≠ ("tool_" ++ wFresh2.jobHex) ∧
    ("twitch.stop_stream" ++ ":" ++ ("req_" ++ wFresh1.reqHex)) ≠
      ("twitch.stop_stream" ++ ":" ++ ("req_" ++ wFresh2.reqHex)) ∧
    (submitAction wSha 60 5 wFresh2 c2Payload
        ((submitAction wSha 60 0 wFresh1 c2Payload wState0).2.1)).2.2 =
      [{ action := "twitch.stop_stream", agent_id := "bot-1", args := [],
         job_id := some ("tool_" ++ wFresh2.jobHex) }] ∧
    alookup (submitAction wSha 60 5 wFresh2 c2Payload
        ((submitAction wSha 60 0 wFresh1 c2Payload wState0).2.1)).2.1.jobs
        ("tool_" ++ wFresh1.jobHex) =
      some (createJob 0 wFresh1.jobHex "twitch.stop_stream"
        ("req_" ++ wFresh1.reqHex) "bot-1" none none []) ∧
    alookup (submitAction wSha 60 5 wFresh2 c2Payload
        ((submitAction wSha 60 0 wFresh1 c2Payload wState0).2.1)).2.1.jobs
        ("tool_" ++ wFresh2.jobHex) =
      some (createJob 5 wFresh2.jobHex "twitch.stop_stream"
        ("req_" ++ wFresh2.reqHex) "bot-1" none none []) :=
  c10_invalid_request_id_not_deduplicated "ab" "req" wFresh1.reqHex wSha 60 0 5
    wFresh1 wFresh2 c2Payload wState0
    { request_id := some "ab", agent_id := "bot-1",
      action := "twitch.stop_stream", args := [], mission_id := none,
      correlation_id := none } "ab"
    (by decide) rfl (by decide) (by decide) (by decide) (by decide)
    (by decide) (by decide) (by decide) (by decide) (by decide)
